import Mathlib

/-!
# Verification of `pkg/reconciling/defaults.go` (k8c-reconciler)

Shallow embedding of the defaulting/normalization layer: `DefaultContainer`,
`DefaultPodSpec` and the four workload wrappers (`DefaultDeployment`,
`DefaultStatefulSet`, `DefaultDaemonSet`, `DefaultCronJob`).

Go pointers to structures become `Option`; Go's `(T, error)` pair on
`DefaultPodSpec` becomes `T × Option String` (an error is modelled as a
`String`); the pointer-returning reconcilers `func(*T) (*T, error)` become
`T → Except String T` (exactly one of result/error is populated, which is the
contract the wrappers rely on). In-place mutation becomes returning the
updated value; `DeepCopy` of an immutable value is the identity. Kubernetes
string-typed enums (`PullPolicy`, `ProcMountType`, `SeccompProfileType`,
`DeploymentStrategyType`, ...) are `String`; `int32` fields hold values far
from the 2^31 boundary, so they are `Int`.
-/

namespace Reconciling

/-- `corev1.ObjectFieldSelector`: the fields the code reads or writes. -/
structure ObjectFieldSelector where
  apiVersion : String
  fieldPath : String
deriving Repr, DecidableEq

/-- `corev1.EnvVarSource`, restricted to the `FieldRef` member the code uses. -/
structure EnvVarSource where
  fieldRef : Option ObjectFieldSelector
deriving Repr, DecidableEq

/-- `corev1.EnvVar`. -/
structure EnvVar where
  name : String
  value : String
  valueFrom : Option EnvVarSource
deriving Repr, DecidableEq

/-- `corev1.SecurityContext`, restricted to the `ProcMount` member the code
uses (`*corev1.ProcMountType`, a string-typed pointer). -/
structure SecurityContext where
  procMount : Option String
deriving Repr, DecidableEq

/-- `corev1.Container`: the fields `DefaultContainer` touches, plus `image`
as a representative untouched field. -/
structure Container where
  name : String
  image : String
  imagePullPolicy : String
  terminationMessagePath : String
  terminationMessagePolicy : String
  env : List EnvVar
  securityContext : Option SecurityContext
deriving Repr, DecidableEq

/-- `corev1.SecretVolumeSource` (`DefaultMode *int32`). -/
structure SecretVolumeSource where
  secretName : String
  defaultMode : Option Int
deriving Repr, DecidableEq

/-- `corev1.ConfigMapVolumeSource` (`DefaultMode *int32`). -/
structure ConfigMapVolumeSource where
  name : String
  defaultMode : Option Int
deriving Repr, DecidableEq

/-- `corev1.Volume` with its `VolumeSource` members flattened in (the code
only looks at `Secret` and `ConfigMap`). -/
structure Volume where
  name : String
  secret : Option SecretVolumeSource
  configMap : Option ConfigMapVolumeSource
deriving Repr, DecidableEq

/-- `corev1.SeccompProfile`. -/
structure SeccompProfile where
  type : String
deriving Repr, DecidableEq

/-- `corev1.PodSecurityContext`, restricted to the `SeccompProfile` member
the code uses. -/
structure PodSecurityContext where
  seccompProfile : Option SeccompProfile
deriving Repr, DecidableEq

/-- `corev1.PodSpec`: the fields `DefaultPodSpec` touches. -/
structure PodSpec where
  initContainers : List Container
  containers : List Container
  volumes : List Volume
  securityContext : Option PodSecurityContext
deriving Repr, DecidableEq

/-! ## Platform constants (from `k8s.io/api/core/v1` and `intstr`) -/

/-- `corev1.PullIfNotPresent`. -/
def PullIfNotPresent : String := "IfNotPresent"

/-- `corev1.TerminationMessagePathDefault`. -/
def TerminationMessagePathDefault : String := "/dev/termination-log"

/-- `corev1.TerminationMessageReadFile`. -/
def TerminationMessageReadFile : String := "File"

/-- `corev1.SecretVolumeSourceDefaultMode` = 0644 octal. -/
def SecretVolumeSourceDefaultMode : Int := 420

/-- `corev1.ConfigMapVolumeSourceDefaultMode` = 0644 octal. -/
def ConfigMapVolumeSourceDefaultMode : Int := 420

/-- `corev1.SeccompProfileTypeRuntimeDefault`. -/
def SeccompProfileTypeRuntimeDefault : String := "RuntimeDefault"

/-- `appsv1.RollingUpdateDeploymentStrategyType`. -/
def RollingUpdateDeploymentStrategyType : String := "RollingUpdate"

/-- `intstr.Int` (the `Type` tag value for an integer `IntOrString`). -/
def intstrInt : Int := 0

/-! ## `DefaultContainer` -/

/-- Body of the `for idx := range c.Env` loop of `DefaultContainer`: if the
entry has `ValueFrom.FieldRef` and its `APIVersion` is empty, set it to
`"v1"`. -/
def defaultEnvVar (e : EnvVar) : EnvVar :=
  match e.valueFrom with
  | some vf =>
    match vf.fieldRef with
    | some fr =>
      if fr.apiVersion = "" then
        { e with valueFrom := some { vf with fieldRef := some { fr with apiVersion := "v1" } } }
      else e
    | none => e
  | none => e

/-- `DefaultContainer(c *corev1.Container, procMountType *corev1.ProcMountType)`
from `defaults.go`, as a function on the container value. -/
def DefaultContainer (c : Container) (procMountType : Option String) : Container :=
  let c := if c.imagePullPolicy = "" then { c with imagePullPolicy := PullIfNotPresent } else c
  let c := if c.terminationMessagePath = "" then
      { c with terminationMessagePath := TerminationMessagePathDefault }
    else c
  let c := if c.terminationMessagePolicy = "" then
      { c with terminationMessagePolicy := TerminationMessageReadFile }
    else c
  let c := { c with env := c.env.map defaultEnvVar }
  match c.securityContext with
  | some sc => { c with securityContext := some { sc with procMount := procMountType } }
  | none => c

/-! ## `DefaultPodSpec` -/

/-- Body of the map-building loops of `DefaultPodSpec`: Go's
`m[container.Name] = container.SecurityContext.ProcMount`, guarded by
`container.SecurityContext != nil`. The Go map `map[string]*ProcMountType` is
a function `String → Option (Option String)`: outer `none` is "key absent"
(Go lookup yields the zero value `nil`), the inner option is the stored
`*ProcMountType`. Later loop iterations overwrite earlier ones. -/
def procMountStep (m : String → Option (Option String)) (container : Container) :
    String → Option (Option String) :=
  match container.securityContext with
  | some sc => fun name => if name = container.name then some sc.procMount else m name
  | none => m

/-- The `for _, container := range ...` map-building loop of `DefaultPodSpec`
(used once for `InitContainers`, once for `Containers`). -/
def procMountMapOf (cs : List Container) : String → Option (Option String) :=
  cs.foldl procMountStep (fun _ => none)

/-- Body of the `for idx, vol := range newPodSpec.Volumes` loop of
`DefaultPodSpec`. -/
def defaultVolume (vol : Volume) : Volume :=
  let vol :=
    match vol.secret with
    | some s =>
      if s.defaultMode = none then
        { vol with secret := some { s with defaultMode := some SecretVolumeSourceDefaultMode } }
      else vol
    | none => vol
  match vol.configMap with
  | some cm =>
    if cm.defaultMode = none then
      { vol with configMap := some { cm with defaultMode := some ConfigMapVolumeSourceDefaultMode } }
    else vol
  | none => vol

/-- `DefaultPodSpec(oldPodSpec, newPodSpec corev1.PodSpec) (corev1.PodSpec, error)`
from `defaults.go`. A Go map lookup `m[k]` yields the zero value `nil` on a
missing key, hence `(map k).getD none`. -/
def DefaultPodSpec (oldPodSpec newPodSpec : PodSpec) : PodSpec × Option String :=
  let initContainerProcMountType := procMountMapOf oldPodSpec.initContainers
  let containerProcMountType := procMountMapOf oldPodSpec.containers
  let newPodSpec := { newPodSpec with
    initContainers := newPodSpec.initContainers.map
      (fun container => DefaultContainer container ((initContainerProcMountType container.name).getD none)) }
  let newPodSpec := { newPodSpec with
    containers := newPodSpec.containers.map
      (fun container => DefaultContainer container ((containerProcMountType container.name).getD none)) }
  let newPodSpec := { newPodSpec with volumes := newPodSpec.volumes.map defaultVolume }
  let newPodSpec :=
    match newPodSpec.securityContext with
    | none => { newPodSpec with securityContext := some { seccompProfile := none } }
    | some _ => newPodSpec
  let newPodSpec :=
    match newPodSpec.securityContext with
    | some sc =>
      match sc.seccompProfile with
      | none =>
        let sc := { sc with seccompProfile := some { type := SeccompProfileTypeRuntimeDefault } }
        { newPodSpec with securityContext := some sc }
      | some _ => newPodSpec
    | none => newPodSpec
  (newPodSpec, none)

/-! ## Workload kinds and wrappers -/

/-- `intstr.IntOrString`. -/
structure IntOrString where
  type : Int
  intVal : Int
  strVal : String
deriving Repr, DecidableEq

/-- `appsv1.RollingUpdateDeployment`. -/
structure RollingUpdateDeployment where
  maxSurge : Option IntOrString
  maxUnavailable : Option IntOrString
deriving Repr, DecidableEq

/-- `appsv1.DeploymentStrategy`. -/
structure DeploymentStrategy where
  type : String
  rollingUpdate : Option RollingUpdateDeployment
deriving Repr, DecidableEq

/-- `corev1.PodTemplateSpec` (metadata is irrelevant to this code). -/
structure PodTemplateSpec where
  spec : PodSpec
deriving Repr, DecidableEq

/-- `appsv1.DeploymentSpec`: the fields the wrapper touches, plus `replicas`
as a representative untouched field. -/
structure DeploymentSpec where
  replicas : Option Int
  strategy : DeploymentStrategy
  template : PodTemplateSpec
deriving Repr, DecidableEq

/-- `appsv1.Deployment` (`name` stands in for the object metadata). -/
structure Deployment where
  name : String
  spec : DeploymentSpec
deriving Repr, DecidableEq

/-- `appsv1.StatefulSetSpec`. -/
structure StatefulSetSpec where
  replicas : Option Int
  serviceName : String
  template : PodTemplateSpec
deriving Repr, DecidableEq

/-- `appsv1.StatefulSet`. -/
structure StatefulSet where
  name : String
  spec : StatefulSetSpec
deriving Repr, DecidableEq

/-- `appsv1.DaemonSetSpec`. -/
structure DaemonSetSpec where
  minReadySeconds : Int
  template : PodTemplateSpec
deriving Repr, DecidableEq

/-- `appsv1.DaemonSet`. -/
structure DaemonSet where
  name : String
  spec : DaemonSetSpec
deriving Repr, DecidableEq

/-- `batchv1.JobSpec`. -/
structure JobSpec where
  template : PodTemplateSpec
deriving Repr, DecidableEq

/-- `batchv1.JobTemplateSpec`. -/
structure JobTemplateSpec where
  spec : JobSpec
deriving Repr, DecidableEq

/-- `batchv1.CronJobSpec`. -/
structure CronJobSpec where
  schedule : String
  jobTemplate : JobTemplateSpec
deriving Repr, DecidableEq

/-- `batchv1.CronJob`. -/
structure CronJob where
  name : String
  spec : CronJobSpec
deriving Repr, DecidableEq

/-- `DeploymentReconciler`: Go `func(*appsv1.Deployment) (*appsv1.Deployment, error)`;
by contract exactly one of result and error is populated. -/
abbrev DeploymentReconciler := Deployment → Except String Deployment

/-- `StatefulSetReconciler`. -/
abbrev StatefulSetReconciler := StatefulSet → Except String StatefulSet

/-- `DaemonSetReconciler`. -/
abbrev DaemonSetReconciler := DaemonSet → Except String DaemonSet

/-- `CronJobReconciler`. -/
abbrev CronJobReconciler := CronJob → Except String CronJob

/-- The `RollingUpdateDeployment` literal assigned by `DefaultDeployment`:
`MaxSurge = Int 1`, `MaxUnavailable = Int 0`. -/
def defaultRollingUpdate : RollingUpdateDeployment :=
  { maxSurge := some { type := intstrInt, intVal := 1, strVal := "" }
    maxUnavailable := some { type := intstrInt, intVal := 0, strVal := "" } }

/-- `DefaultDeployment(reconciler DeploymentReconciler) DeploymentReconciler`
from `defaults.go`. `old := d.DeepCopy()` is the identity on the immutable
input value. -/
def DefaultDeployment (reconciler : DeploymentReconciler) : DeploymentReconciler :=
  fun d =>
    let old := d
    match reconciler d with
    | Except.error err => Except.error err
    | Except.ok d =>
      let d :=
        if d.spec.strategy.type = "" then
          let strat := { d.spec.strategy with type := RollingUpdateDeploymentStrategyType }
          let d := { d with spec := { d.spec with strategy := strat } }
          if d.spec.strategy.rollingUpdate = none then
            let strat := { d.spec.strategy with rollingUpdate := some defaultRollingUpdate }
            { d with spec := { d.spec with strategy := strat } }
          else d
        else d
      match DefaultPodSpec old.spec.template.spec d.spec.template.spec with
      | (_, some err) => Except.error err
      | (spec, none) =>
        Except.ok { d with spec := { d.spec with template := { d.spec.template with spec := spec } } }

/-- `DefaultStatefulSet` from `defaults.go`. -/
def DefaultStatefulSet (reconciler : StatefulSetReconciler) : StatefulSetReconciler :=
  fun ss =>
    let old := ss
    match reconciler ss with
    | Except.error err => Except.error err
    | Except.ok ss =>
      match DefaultPodSpec old.spec.template.spec ss.spec.template.spec with
      | (_, some err) => Except.error err
      | (spec, none) =>
        Except.ok { ss with spec := { ss.spec with template := { ss.spec.template with spec := spec } } }

/-- `DefaultDaemonSet` from `defaults.go`. -/
def DefaultDaemonSet (reconciler : DaemonSetReconciler) : DaemonSetReconciler :=
  fun ds =>
    let old := ds
    match reconciler ds with
    | Except.error err => Except.error err
    | Except.ok ds =>
      match DefaultPodSpec old.spec.template.spec ds.spec.template.spec with
      | (_, some err) => Except.error err
      | (spec, none) =>
        Except.ok { ds with spec := { ds.spec with template := { ds.spec.template with spec := spec } } }

/-- `DefaultCronJob` from `defaults.go` (the pod template sits two levels
down, via the job template). -/
def DefaultCronJob (reconciler : CronJobReconciler) : CronJobReconciler :=
  fun cj =>
    let old := cj
    match reconciler cj with
    | Except.error err => Except.error err
    | Except.ok cj =>
      match DefaultPodSpec old.spec.jobTemplate.spec.template.spec
          cj.spec.jobTemplate.spec.template.spec with
      | (_, some err) => Except.error err
      | (spec, none) =>
        let template := { cj.spec.jobTemplate.spec.template with spec := spec }
        let jobSpec := { cj.spec.jobTemplate.spec with template := template }
        let jobTemplate := { cj.spec.jobTemplate with spec := jobSpec }
        Except.ok { cj with spec := { cj.spec with jobTemplate := jobTemplate } }

/-- The combined effect of the two trailing `SecurityContext` steps of
`DefaultPodSpec` (allocate-if-absent, then fill the seccomp profile if
unset), as a function of the incoming optional pod security context. Used
only to state lemmas; `DefaultPodSpec_eq` proves it matches the code. -/
def normalizedPodSecurityContext (x : Option PodSecurityContext) : PodSecurityContext :=
  match x with
  | none => { seccompProfile := some { type := SeccompProfileTypeRuntimeDefault } }
  | some sc =>
    match sc.seccompProfile with
    | none => { sc with seccompProfile := some { type := SeccompProfileTypeRuntimeDefault } }
    | some _ => sc

/-! ## Concrete sample objects (used to evaluate the theorems on inputs) -/

/-- An env entry with a field reference whose API-version tag is empty. -/
def exEnvVar : EnvVar :=
  { name := "POD_IP", value := "", valueFrom := some { fieldRef := some { apiVersion := "", fieldPath := "status.podIP" } } }

def exContainerOld : Container :=
  { name := "app", image := "img:old", imagePullPolicy := "Always",
    terminationMessagePath := "/dev/termination-log", terminationMessagePolicy := "File",
    env := [], securityContext := some { procMount := some "Unmasked" } }

def exInitOld : Container :=
  { name := "init", image := "img:init-old", imagePullPolicy := "Always",
    terminationMessagePath := "/dev/termination-log", terminationMessagePolicy := "File",
    env := [], securityContext := some { procMount := some "Default" } }

def exPodSpecOld : PodSpec :=
  { initContainers := [exInitOld], containers := [exContainerOld], volumes := [],
    securityContext := none }

def exContainerNew : Container :=
  { name := "app", image := "img:new", imagePullPolicy := "", terminationMessagePath := "",
    terminationMessagePolicy := "", env := [exEnvVar],
    securityContext := some { procMount := none } }

def exInitNew : Container :=
  { name := "init", image := "img:init-new", imagePullPolicy := "",
    terminationMessagePath := "", terminationMessagePolicy := "", env := [],
    securityContext := some { procMount := none } }

def exVolumes : List Volume :=
  [ { name := "sec-unset", secret := some { secretName := "s1", defaultMode := none }, configMap := none },
    { name := "sec-set", secret := some { secretName := "s2", defaultMode := some 256 }, configMap := none },
    { name := "cm-unset", secret := none, configMap := some { name := "c1", defaultMode := none } },
    { name := "plain", secret := none, configMap := none } ]

def exPodSpecNew : PodSpec :=
  { initContainers := [exInitNew], containers := [exContainerNew], volumes := exVolumes,
    securityContext := none }

/-- A container named `x`, unknown to `exPodSpecOld`, arriving with an
isolation mode already set. -/
def exContainerX : Container :=
  { name := "x", image := "img:x", imagePullPolicy := "", terminationMessagePath := "",
    terminationMessagePolicy := "", env := [], securityContext := some { procMount := some "Unmasked" } }

def exPodSpecX : PodSpec :=
  { initContainers := [exContainerX], containers := [exContainerX], volumes := [],
    securityContext := none }

def exSharedInitOld : Container :=
  { name := "shared", image := "a", imagePullPolicy := "", terminationMessagePath := "",
    terminationMessagePolicy := "", env := [],
    securityContext := some { procMount := some "Unmasked" } }

def exShared2MainOld : Container :=
  { name := "shared2", image := "b", imagePullPolicy := "", terminationMessagePath := "",
    terminationMessagePolicy := "", env := [],
    securityContext := some { procMount := some "Default" } }

def exShared2InitNew : Container :=
  { name := "shared2", image := "c", imagePullPolicy := "", terminationMessagePath := "",
    terminationMessagePolicy := "", env := [],
    securityContext := some { procMount := some "Stale" } }

def exSharedMainNew : Container :=
  { name := "shared", image := "d", imagePullPolicy := "", terminationMessagePath := "",
    terminationMessagePolicy := "", env := [],
    securityContext := some { procMount := some "Stale" } }

/-- Old pod spec whose INIT list has `shared` (with an isolation mode) and
whose MAIN list has `shared2` (with an isolation mode); each name is missing
from the other list. -/
def exPodSpecCrossOld : PodSpec :=
  { initContainers := [exSharedInitOld], containers := [exShared2MainOld], volumes := [],
    securityContext := none }

/-- New pod spec whose MAIN list has `shared` and whose INIT list has
`shared2`, both with security contexts carrying stale isolation modes. -/
def exPodSpecCrossNew : PodSpec :=
  { initContainers := [exShared2InitNew], containers := [exSharedMainNew], volumes := [],
    securityContext := none }

def exPodSpecSCEmpty : PodSpec :=
  { initContainers := [], containers := [], volumes := [],
    securityContext := some { seccompProfile := none } }

def exPodSpecSCLocalhost : PodSpec :=
  { initContainers := [], containers := [], volumes := [],
    securityContext := some { seccompProfile := some { type := "Localhost" } } }

/-- New revision of `app` with no security descriptor at all. -/
def exContainerBareApp : Container :=
  { name := "app", image := "bare", imagePullPolicy := "", terminationMessagePath := "",
    terminationMessagePolicy := "", env := [], securityContext := none }

def exContainerBareInit : Container :=
  { name := "init", image := "bare-init", imagePullPolicy := "", terminationMessagePath := "",
    terminationMessagePolicy := "", env := [], securityContext := none }

def exPodSpecBare : PodSpec :=
  { initContainers := [exContainerBareInit], containers := [exContainerBareApp], volumes := [],
    securityContext := none }

def exPodTemplate : PodTemplateSpec := { spec := exPodSpecNew }

def exDeploymentSpec : DeploymentSpec :=
  { replicas := some 2, strategy := { type := "", rollingUpdate := none },
    template := exPodTemplate }

def exDeployment : Deployment := { name := "d", spec := exDeploymentSpec }

def exDeploymentSpecRecreate : DeploymentSpec :=
  { replicas := some 2, strategy := { type := "Recreate", rollingUpdate := none },
    template := exPodTemplate }

def exDeploymentRecreate : Deployment := { name := "d2", spec := exDeploymentSpecRecreate }

def exStatefulSet : StatefulSet :=
  { name := "ss", spec := { replicas := some 1, serviceName := "svc", template := exPodTemplate } }

def exDaemonSet : DaemonSet :=
  { name := "ds", spec := { minReadySeconds := 0, template := exPodTemplate } }

def exCronJob : CronJob :=
  { name := "cj", spec := { schedule := "0 0 * * *", jobTemplate := { spec := { template := exPodTemplate } } } }

/-! ## Helper lemmas: normal forms of the loop bodies -/

/-- Normal form of `DefaultContainer`: each scalar field is filled only when
empty, the environment entries are mapped, and the isolation mode is
overwritten on any security context present. -/
theorem DefaultContainer_eq (c : Container) (procMountType : Option String) :
    DefaultContainer c procMountType =
      { name := c.name
        image := c.image
        imagePullPolicy := if c.imagePullPolicy = "" then PullIfNotPresent else c.imagePullPolicy
        terminationMessagePath :=
          if c.terminationMessagePath = "" then TerminationMessagePathDefault
          else c.terminationMessagePath
        terminationMessagePolicy :=
          if c.terminationMessagePolicy = "" then TerminationMessageReadFile
          else c.terminationMessagePolicy
        env := c.env.map defaultEnvVar
        securityContext :=
          match c.securityContext with
          | some sc => some { sc with procMount := procMountType }
          | none => none } := by
  by_cases h1 : c.imagePullPolicy = "" <;> by_cases h2 : c.terminationMessagePath = "" <;>
    by_cases h3 : c.terminationMessagePolicy = "" <;>
      cases hsc : c.securityContext <;>
        simp [DefaultContainer, h1, h2, h3, hsc]

theorem DefaultContainer_name (c : Container) (m : Option String) :
    (DefaultContainer c m).name = c.name := by
  rw [DefaultContainer_eq]

theorem DefaultContainer_securityContext (c : Container) (m : Option String) :
    (DefaultContainer c m).securityContext =
      match c.securityContext with
      | some sc => some { sc with procMount := m }
      | none => none := by
  rw [DefaultContainer_eq]

theorem defaultEnvVar_idem (e : EnvVar) : defaultEnvVar (defaultEnvVar e) = defaultEnvVar e := by
  cases e with
  | mk name value valueFrom =>
    cases valueFrom with
    | none => rfl
    | some vf =>
      cases vf with
      | mk fieldRef =>
        cases fieldRef with
        | none => rfl
        | some fr =>
          by_cases h : fr.apiVersion = "" <;> simp [defaultEnvVar, h]

theorem DefaultContainer_idem (c : Container) (m : Option String) :
    DefaultContainer (DefaultContainer c m) m = DefaultContainer c m := by
  rw [DefaultContainer_eq c m, DefaultContainer_eq]
  cases c with
  | mk name image ipp tmPath tmPolicy env sc =>
    cases sc <;> by_cases h1 : ipp = "" <;> by_cases h2 : tmPath = "" <;>
      by_cases h3 : tmPolicy = "" <;>
        simp_all [PullIfNotPresent, TerminationMessagePathDefault, TerminationMessageReadFile,
          List.map_map, Function.comp_def, defaultEnvVar_idem]

/-- Normal form of `defaultVolume`: each source's unset access mode is
filled with the platform default; everything else is untouched. -/
theorem defaultVolume_eq (vol : Volume) :
    defaultVolume vol =
      { name := vol.name
        secret :=
          match vol.secret with
          | some s =>
            if s.defaultMode = none then
              some { s with defaultMode := some SecretVolumeSourceDefaultMode }
            else some s
          | none => none
        configMap :=
          match vol.configMap with
          | some cm =>
            if cm.defaultMode = none then
              some { cm with defaultMode := some ConfigMapVolumeSourceDefaultMode }
            else some cm
          | none => none } := by
  cases vol with
  | mk name secret configMap =>
    rcases secret with _ | ⟨sn, _ | m1⟩ <;> rcases configMap with _ | ⟨cn, _ | m2⟩ <;>
      simp [defaultVolume]

theorem defaultVolume_idem (v : Volume) : defaultVolume (defaultVolume v) = defaultVolume v := by
  rw [defaultVolume_eq v, defaultVolume_eq]
  cases v with
  | mk name secret configMap =>
    rcases secret with _ | ⟨sn, _ | m1⟩ <;> rcases configMap with _ | ⟨cn, _ | m2⟩ <;> simp

/-! ## Helper lemmas: the name-keyed proc-mount lookup -/

/-- If no container in `cs` both is named `n` and has a security context,
folding the map-building step over `cs` leaves the entry for `n` unchanged. -/
theorem foldl_procMountStep_absent (cs : List Container) (n : String)
    (h : ∀ c ∈ cs, c.name = n → c.securityContext = none) :
    ∀ m : String → Option (Option String), cs.foldl procMountStep m n = m n := by
  induction cs with
  | nil => intro m; rfl
  | cons a t ih =>
    intro m
    simp only [List.foldl_cons]
    rw [ih (fun c hc => h c (List.mem_cons_of_mem a hc))]
    unfold procMountStep
    cases hsc : a.securityContext with
    | none => rfl
    | some sc =>
      have hne : ¬(n = a.name) := by
        intro he
        have h0 := h a (List.mem_cons_self a t) he.symm
        rw [hsc] at h0
        exact Option.noConfusion h0
      simp [hne]

/-- A name absent from the old container list (or present only without a
security context) is absent from the proc-mount map. -/
theorem procMountMapOf_absent (cs : List Container) (n : String)
    (h : ∀ c ∈ cs, c.name = n → c.securityContext = none) :
    procMountMapOf cs n = none := by
  unfold procMountMapOf
  rw [foldl_procMountStep_absent cs n h]

/-- With pairwise-distinct container names, the proc-mount map stores, for a
container named `n` carrying a security context, exactly that context's
`procMount`. -/
theorem foldl_procMountStep_found (cs : List Container) (n : String) (c : Container)
    (sc : SecurityContext) (hn : (cs.map Container.name).Nodup) (hc : c ∈ cs)
    (hname : c.name = n) (hsc : c.securityContext = some sc) :
    ∀ m : String → Option (Option String), cs.foldl procMountStep m n = some sc.procMount := by
  induction cs with
  | nil => cases hc
  | cons a t ih =>
    intro m
    simp only [List.map_cons, List.nodup_cons] at hn
    obtain ⟨ha, ht⟩ := hn
    simp only [List.foldl_cons]
    rcases List.mem_cons.mp hc with rfl | hmem
    · have hall : ∀ c' ∈ t, c'.name = n → c'.securityContext = none := by
        intro c' hc' hn'
        exfalso
        apply ha
        rw [hname, ← hn']
        exact List.mem_map_of_mem Container.name hc'
      rw [foldl_procMountStep_absent t n hall]
      unfold procMountStep
      rw [hsc]
      simp [hname]
    · exact ih ht hmem (procMountStep m a)

theorem procMountMapOf_found (cs : List Container) (n : String) (c : Container)
    (sc : SecurityContext) (hn : (cs.map Container.name).Nodup) (hc : c ∈ cs)
    (hname : c.name = n) (hsc : c.securityContext = some sc) :
    procMountMapOf cs n = some sc.procMount := by
  unfold procMountMapOf
  exact foldl_procMountStep_found cs n c sc hn hc hname hsc _

/-! ## Helper lemmas: normal form of `DefaultPodSpec` -/

/-- Normal form of `DefaultPodSpec`: the error component is always `none`,
each container list is mapped with the lookup from the corresponding old
list, volumes are mapped with `defaultVolume`, and the pod security context
is normalized. -/
theorem DefaultPodSpec_eq (o n : PodSpec) :
    DefaultPodSpec o n =
      ({ initContainers := n.initContainers.map
            (fun c => DefaultContainer c ((procMountMapOf o.initContainers c.name).getD none))
         containers := n.containers.map
            (fun c => DefaultContainer c ((procMountMapOf o.containers c.name).getD none))
         volumes := n.volumes.map defaultVolume
         securityContext := some (normalizedPodSecurityContext n.securityContext) }, none) := by
  cases hsc : n.securityContext with
  | none => simp [DefaultPodSpec, normalizedPodSecurityContext, hsc]
  | some sc =>
    cases hsp : sc.seccompProfile with
    | none => simp [DefaultPodSpec, normalizedPodSecurityContext, hsc, hsp]
    | some p => simp [DefaultPodSpec, normalizedPodSecurityContext, hsc, hsp]

theorem DefaultPodSpec_snd (o n : PodSpec) : (DefaultPodSpec o n).2 = none := by
  rw [DefaultPodSpec_eq]

theorem DefaultPodSpec_initContainers (o n : PodSpec) :
    (DefaultPodSpec o n).1.initContainers =
      n.initContainers.map
        (fun c => DefaultContainer c ((procMountMapOf o.initContainers c.name).getD none)) := by
  rw [DefaultPodSpec_eq]

theorem DefaultPodSpec_containers (o n : PodSpec) :
    (DefaultPodSpec o n).1.containers =
      n.containers.map
        (fun c => DefaultContainer c ((procMountMapOf o.containers c.name).getD none)) := by
  rw [DefaultPodSpec_eq]

theorem DefaultPodSpec_volumes (o n : PodSpec) :
    (DefaultPodSpec o n).1.volumes = n.volumes.map defaultVolume := by
  rw [DefaultPodSpec_eq]

theorem DefaultPodSpec_securityContext (o n : PodSpec) :
    (DefaultPodSpec o n).1.securityContext =
      some (normalizedPodSecurityContext n.securityContext) := by
  rw [DefaultPodSpec_eq]

theorem normalizedPodSecurityContext_idem (x : Option PodSecurityContext) :
    normalizedPodSecurityContext (some (normalizedPodSecurityContext x)) =
      normalizedPodSecurityContext x := by
  rcases x with _ | ⟨_ | p⟩ <;> simp [normalizedPodSecurityContext]

/-- Mapping a container list twice with the same isolation-mode lookup is
the same as mapping it once, provided the lookup only depends on fields
`DefaultContainer` preserves (instantiated with name-based lookups). -/
theorem map_DefaultContainer_idem (v : Container → Option String)
    (hv : ∀ c m, v (DefaultContainer c m) = v c) (L : List Container) :
    (L.map (fun c => DefaultContainer c (v c))).map (fun c => DefaultContainer c (v c)) =
      L.map (fun c => DefaultContainer c (v c)) := by
  rw [List.map_map]
  apply List.map_congr_left
  intro c _
  simp only [Function.comp_apply, hv, DefaultContainer_idem]

theorem map_defaultVolume_idem (L : List Volume) :
    (L.map defaultVolume).map defaultVolume = L.map defaultVolume := by
  rw [List.map_map]
  apply List.map_congr_left
  intro v _
  simp only [Function.comp_apply, defaultVolume_idem]

theorem normalizedPodSecurityContext_profile_isSome (x : Option PodSecurityContext) :
    ∃ p, (normalizedPodSecurityContext x).seccompProfile = some p := by
  rcases x with _ | ⟨_ | p⟩ <;> simp [normalizedPodSecurityContext]

/-- Any container of a normalized list that is named `nm` and still carries a
security context carries exactly the isolation mode looked up for `nm`. -/
theorem mem_map_DefaultContainer_procMount (oldCs newCs : List Container) (nm : String)
    (M : Option String) (hlook : (procMountMapOf oldCs nm).getD none = M) :
    ∀ d ∈ newCs.map (fun c => DefaultContainer c ((procMountMapOf oldCs c.name).getD none)),
      d.name = nm → ∀ sd, d.securityContext = some sd → sd.procMount = M := by
  intro d hd hdn sd hsd
  obtain ⟨c, hc, rfl⟩ := List.mem_map.mp hd
  rw [DefaultContainer_name] at hdn
  rw [DefaultContainer_securityContext] at hsd
  cases hcs : c.securityContext with
  | none =>
    rw [hcs] at hsd
    exact Option.noConfusion hsd
  | some sc0 =>
    rw [hcs] at hsd
    obtain rfl := Option.some.inj hsd
    show (procMountMapOf oldCs c.name).getD none = M
    rw [hdn]
    exact hlook

/-- Per-volume case analysis of `defaultVolume`, matching the fill-only
behaviour of the volume loop of `DefaultPodSpec`. -/
theorem defaultVolume_cases (v : Volume) :
    (defaultVolume v).name = v.name ∧
    (∀ s, v.secret = some s → s.defaultMode = none →
      (defaultVolume v).secret = some { s with defaultMode := some SecretVolumeSourceDefaultMode }) ∧
    (∀ s m, v.secret = some s → s.defaultMode = some m → (defaultVolume v).secret = some s) ∧
    (v.secret = none → (defaultVolume v).secret = none) ∧
    (∀ cm, v.configMap = some cm → cm.defaultMode = none →
      (defaultVolume v).configMap = some { cm with defaultMode := some ConfigMapVolumeSourceDefaultMode }) ∧
    (∀ cm m, v.configMap = some cm → cm.defaultMode = some m → (defaultVolume v).configMap = some cm) ∧
    (v.configMap = none → (defaultVolume v).configMap = none) ∧
    (v.secret = none → v.configMap = none → defaultVolume v = v) := by
  cases v with
  | mk name secret configMap =>
    rw [defaultVolume_eq]
    refine ⟨rfl, fun s hs hm => ?_, fun s m hs hm => ?_, fun hs => ?_,
      fun cm hcm hm => ?_, fun cm m hcm hm => ?_, fun hcm => ?_, fun hs hcm => ?_⟩ <;>
      simp_all

/-! ## The claims -/

/-- C9: Normalization is total — for every pair of input pod specs,
`DefaultPodSpec` returns a `nil` error. -/
theorem claimC9_defaultPodSpec_total (oldPodSpec newPodSpec : PodSpec) :
    (DefaultPodSpec oldPodSpec newPodSpec).2 = none := by
  rw [DefaultPodSpec_eq]

/-- C2: Idempotence of normalization — re-normalizing the output of
`DefaultPodSpec` against the same baseline reproduces it exactly (error slot
included). -/
theorem claimC2_defaultPodSpec_idempotent (T0 T : PodSpec) :
    DefaultPodSpec T0 (DefaultPodSpec T0 T).1 = DefaultPodSpec T0 T := by
  have h1 := map_DefaultContainer_idem
    (fun c => (procMountMapOf T0.initContainers c.name).getD none)
    (fun c m => by simp only [DefaultContainer_name]) T.initContainers
  have h2 := map_DefaultContainer_idem
    (fun c => (procMountMapOf T0.containers c.name).getD none)
    (fun c m => by simp only [DefaultContainer_name]) T.containers
  have h3 := map_defaultVolume_idem T.volumes
  have h4 := normalizedPodSecurityContext_idem T.securityContext
  rw [DefaultPodSpec_eq T0 T, DefaultPodSpec_eq]
  simp_all

/-- C4: Seccomp postcondition — the returned pod spec always has a security
context with a seccomp profile; an absent context or absent profile is
filled with type `RuntimeDefault`, and a pre-existing profile is kept along
with its whole context. -/
theorem claimC4_seccomp_postcondition (o n : PodSpec) :
    (∃ psc prof, (DefaultPodSpec o n).1.securityContext = some psc ∧
      psc.seccompProfile = some prof) ∧
    (n.securityContext = none →
      (DefaultPodSpec o n).1.securityContext =
        some { seccompProfile := some { type := SeccompProfileTypeRuntimeDefault } }) ∧
    (∀ psc0, n.securityContext = some psc0 → psc0.seccompProfile = none →
      (DefaultPodSpec o n).1.securityContext =
        some { psc0 with seccompProfile := some { type := SeccompProfileTypeRuntimeDefault } }) ∧
    (∀ psc0 p0, n.securityContext = some psc0 → psc0.seccompProfile = some p0 →
      (DefaultPodSpec o n).1.securityContext = some psc0) := by
  rw [DefaultPodSpec_securityContext]
  refine ⟨?_, fun h => ?_, fun psc0 h hp => ?_, fun psc0 p0 h hp => ?_⟩
  · obtain ⟨p, hp⟩ := normalizedPodSecurityContext_profile_isSome n.securityContext
    exact ⟨normalizedPodSecurityContext n.securityContext, p, rfl, hp⟩
  · rw [h]
    simp [normalizedPodSecurityContext]
  · rw [h]
    simp [normalizedPodSecurityContext, hp]
  · rw [h]
    simp [normalizedPodSecurityContext, hp]

/-- Witness for C4 at the three concrete inputs: absent security context,
context without a profile, and a pre-existing `Localhost` profile. -/
theorem claimC4_witness :
    (DefaultPodSpec exPodSpecOld exPodSpecNew).1.securityContext =
      some { seccompProfile := some { type := SeccompProfileTypeRuntimeDefault } } ∧
    (DefaultPodSpec exPodSpecOld exPodSpecSCEmpty).1.securityContext =
      some { seccompProfile := some { type := SeccompProfileTypeRuntimeDefault } } ∧
    (DefaultPodSpec exPodSpecOld exPodSpecSCLocalhost).1.securityContext =
      some { seccompProfile := some { type := "Localhost" } } :=
  ⟨(claimC4_seccomp_postcondition exPodSpecOld exPodSpecNew).2.1 rfl,
   (claimC4_seccomp_postcondition exPodSpecOld exPodSpecSCEmpty).2.2.1
      { seccompProfile := none } rfl rfl,
   (claimC4_seccomp_postcondition exPodSpecOld exPodSpecSCLocalhost).2.2.2
      { seccompProfile := some { type := "Localhost" } } { type := "Localhost" } rfl rfl⟩

/-- C7: Volume defaulting is fill-only — each volume keeps its position and
name; a secret (resp. config-map) source with unset access mode receives the
platform default, a set mode is kept, an absent source stays absent, and a
volume with neither source is returned untouched. -/
theorem claimC7_volume_fill_only (o n : PodSpec) :
    (DefaultPodSpec o n).1.volumes.length = n.volumes.length ∧
    ∀ (i : Nat) (h : i < n.volumes.length) (h' : i < (DefaultPodSpec o n).1.volumes.length),
      ((DefaultPodSpec o n).1.volumes.get ⟨i, h'⟩).name = (n.volumes.get ⟨i, h⟩).name ∧
      (∀ s, (n.volumes.get ⟨i, h⟩).secret = some s → s.defaultMode = none →
        ((DefaultPodSpec o n).1.volumes.get ⟨i, h'⟩).secret =
          some { s with defaultMode := some SecretVolumeSourceDefaultMode }) ∧
      (∀ s m, (n.volumes.get ⟨i, h⟩).secret = some s → s.defaultMode = some m →
        ((DefaultPodSpec o n).1.volumes.get ⟨i, h'⟩).secret = some s) ∧
      ((n.volumes.get ⟨i, h⟩).secret = none →
        ((DefaultPodSpec o n).1.volumes.get ⟨i, h'⟩).secret = none) ∧
      (∀ cm, (n.volumes.get ⟨i, h⟩).configMap = some cm → cm.defaultMode = none →
        ((DefaultPodSpec o n).1.volumes.get ⟨i, h'⟩).configMap =
          some { cm with defaultMode := some ConfigMapVolumeSourceDefaultMode }) ∧
      (∀ cm m, (n.volumes.get ⟨i, h⟩).configMap = some cm → cm.defaultMode = some m →
        ((DefaultPodSpec o n).1.volumes.get ⟨i, h'⟩).configMap = some cm) ∧
      ((n.volumes.get ⟨i, h⟩).configMap = none →
        ((DefaultPodSpec o n).1.volumes.get ⟨i, h'⟩).configMap = none) ∧
      ((n.volumes.get ⟨i, h⟩).secret = none → (n.volumes.get ⟨i, h⟩).configMap = none →
        (DefaultPodSpec o n).1.volumes.get ⟨i, h'⟩ = n.volumes.get ⟨i, h⟩) := by
  refine ⟨by rw [DefaultPodSpec_volumes, List.length_map], fun i h h' => ?_⟩
  have hg : (DefaultPodSpec o n).1.volumes.get ⟨i, h'⟩ = defaultVolume (n.volumes.get ⟨i, h⟩) := by
    simp only [List.get_eq_getElem, DefaultPodSpec_volumes, List.getElem_map]
  rw [hg]
  exact defaultVolume_cases (n.volumes.get ⟨i, h⟩)

/-- Witness for C7 on a concrete volume list: unset secret mode filled with
0644, a 0400 secret mode kept, unset config-map mode filled, and a volume
with neither source returned untouched. -/
theorem claimC7_witness :
    (DefaultPodSpec exPodSpecOld exPodSpecNew).1.volumes.length = exPodSpecNew.volumes.length ∧
    ((DefaultPodSpec exPodSpecOld exPodSpecNew).1.volumes.get ⟨0, by decide⟩).secret =
      some { secretName := "s1", defaultMode := some SecretVolumeSourceDefaultMode } ∧
    ((DefaultPodSpec exPodSpecOld exPodSpecNew).1.volumes.get ⟨1, by decide⟩).secret =
      some { secretName := "s2", defaultMode := some 256 } ∧
    ((DefaultPodSpec exPodSpecOld exPodSpecNew).1.volumes.get ⟨2, by decide⟩).configMap =
      some { name := "c1", defaultMode := some ConfigMapVolumeSourceDefaultMode } ∧
    (DefaultPodSpec exPodSpecOld exPodSpecNew).1.volumes.get ⟨3, by decide⟩ =
      { name := "plain", secret := none, configMap := none } :=
  ⟨(claimC7_volume_fill_only exPodSpecOld exPodSpecNew).1,
   ((claimC7_volume_fill_only exPodSpecOld exPodSpecNew).2 0 (by decide) (by decide)).2.1
      { secretName := "s1", defaultMode := none } rfl rfl,
   ((claimC7_volume_fill_only exPodSpecOld exPodSpecNew).2 1 (by decide) (by decide)).2.2.1
      { secretName := "s2", defaultMode := some 256 } 256 rfl rfl,
   ((claimC7_volume_fill_only exPodSpecOld exPodSpecNew).2 2 (by decide) (by decide)).2.2.2.2.1
      { name := "c1", defaultMode := none } rfl rfl,
   ((claimC7_volume_fill_only exPodSpecOld exPodSpecNew).2 3 (by decide) (by decide)).2.2.2.2.2.2.2
      rfl rfl⟩

/-- C8: Non-fabrication of container security descriptors — a container of
the new pod spec with a `nil` security context still has a `nil` security
context at the same position after normalization (main and init lists). -/
theorem claimC8_no_fabricated_security_context (o n : PodSpec) :
    (∀ (i : Nat) (h : i < n.containers.length)
        (h' : i < (DefaultPodSpec o n).1.containers.length),
      (n.containers.get ⟨i, h⟩).securityContext = none →
      ((DefaultPodSpec o n).1.containers.get ⟨i, h'⟩).securityContext = none) ∧
    (∀ (i : Nat) (h : i < n.initContainers.length)
        (h' : i < (DefaultPodSpec o n).1.initContainers.length),
      (n.initContainers.get ⟨i, h⟩).securityContext = none →
      ((DefaultPodSpec o n).1.initContainers.get ⟨i, h'⟩).securityContext = none) := by
  constructor
  · intro i h h' hnone
    have hg : (DefaultPodSpec o n).1.containers.get ⟨i, h'⟩ =
        DefaultContainer (n.containers.get ⟨i, h⟩)
          ((procMountMapOf o.containers (n.containers.get ⟨i, h⟩).name).getD none) := by
      simp only [List.get_eq_getElem, DefaultPodSpec_containers, List.getElem_map]
    rw [hg, DefaultContainer_securityContext, hnone]
  · intro i h h' hnone
    have hg : (DefaultPodSpec o n).1.initContainers.get ⟨i, h'⟩ =
        DefaultContainer (n.initContainers.get ⟨i, h⟩)
          ((procMountMapOf o.initContainers (n.initContainers.get ⟨i, h⟩).name).getD none) := by
      simp only [List.get_eq_getElem, DefaultPodSpec_initContainers, List.getElem_map]
    rw [hg, DefaultContainer_securityContext, hnone]

/-- Witness for C8: the bare new `app`/`init` containers keep a `nil`
security context even though old containers of the same names carried
isolation modes. -/
theorem claimC8_witness :
    ((DefaultPodSpec exPodSpecOld exPodSpecBare).1.containers.get ⟨0, by decide⟩).securityContext =
      none ∧
    ((DefaultPodSpec exPodSpecOld exPodSpecBare).1.initContainers.get ⟨0, by decide⟩).securityContext =
      none :=
  ⟨(claimC8_no_fabricated_security_context exPodSpecOld exPodSpecBare).1 0 (by decide) (by decide)
      rfl,
   (claimC8_no_fabricated_security_context exPodSpecOld exPodSpecBare).2 0 (by decide) (by decide)
      rfl⟩

/-- C1: Isolation-mode carry-forward — with name-keyed container identity
(pairwise distinct names in the old list), if the old list has a container
named `nm` with a security context whose proc mount is `M`, every normalized
new container named `nm` that carries a security context has proc mount `M`;
main and init lists behave alike. -/
theorem claimC1_isolation_carry_forward (o n : PodSpec) (nm : String) (M : Option String) :
    ((o.containers.map Container.name).Nodup →
      (∃ c ∈ o.containers, c.name = nm ∧ ∃ sc, c.securityContext = some sc ∧ sc.procMount = M) →
      ∀ d ∈ (DefaultPodSpec o n).1.containers, d.name = nm →
        ∀ sd, d.securityContext = some sd → sd.procMount = M) ∧
    ((o.initContainers.map Container.name).Nodup →
      (∃ c ∈ o.initContainers, c.name = nm ∧ ∃ sc, c.securityContext = some sc ∧ sc.procMount = M) →
      ∀ d ∈ (DefaultPodSpec o n).1.initContainers, d.name = nm →
        ∀ sd, d.securityContext = some sd → sd.procMount = M) := by
  constructor
  · rintro hnodup ⟨c, hc, hcn, sc, hsc, hpm⟩
    have hlook : (procMountMapOf o.containers nm).getD none = M := by
      rw [procMountMapOf_found o.containers nm c sc hnodup hc hcn hsc]
      simpa using hpm
    rw [DefaultPodSpec_containers]
    exact mem_map_DefaultContainer_procMount o.containers n.containers nm M hlook
  · rintro hnodup ⟨c, hc, hcn, sc, hsc, hpm⟩
    have hlook : (procMountMapOf o.initContainers nm).getD none = M := by
      rw [procMountMapOf_found o.initContainers nm c sc hnodup hc hcn hsc]
      simpa using hpm
    rw [DefaultPodSpec_initContainers]
    exact mem_map_DefaultContainer_procMount o.initContainers n.initContainers nm M hlook

/-- Witness for C1: `app` carries `Unmasked` forward in the main list and
`init` carries `Default` forward in the init list, although the new
containers arrived with the mode unset and other fields changed. -/
theorem claimC1_witness :
    ((exPodSpecOld.containers.map Container.name).Nodup ∧
      (∃ c ∈ exPodSpecOld.containers, c.name = "app" ∧
        ∃ sc, c.securityContext = some sc ∧ sc.procMount = some "Unmasked") ∧
      (∀ d ∈ (DefaultPodSpec exPodSpecOld exPodSpecNew).1.containers, d.name = "app" →
        ∀ sd, d.securityContext = some sd → sd.procMount = some "Unmasked")) ∧
    ((exPodSpecOld.initContainers.map Container.name).Nodup ∧
      (∃ c ∈ exPodSpecOld.initContainers, c.name = "init" ∧
        ∃ sc, c.securityContext = some sc ∧ sc.procMount = some "Default") ∧
      (∀ d ∈ (DefaultPodSpec exPodSpecOld exPodSpecNew).1.initContainers, d.name = "init" →
        ∀ sd, d.securityContext = some sd → sd.procMount = some "Default")) :=
  ⟨⟨by decide, by decide,
    (claimC1_isolation_carry_forward exPodSpecOld exPodSpecNew "app" (some "Unmasked")).1
      (by decide) (by decide)⟩,
   ⟨by decide, by decide,
    (claimC1_isolation_carry_forward exPodSpecOld exPodSpecNew "init" (some "Default")).2
      (by decide) (by decide)⟩⟩

/-- C3: Isolation-mode overwrite-to-unset — if the old list has no container
named `nm` carrying a security context, every normalized new container named
`nm` that carries a security context ends with proc mount unset, whatever
value it arrived with; main and init lists behave alike. -/
theorem claimC3_overwrite_to_unset (o n : PodSpec) (nm : String) :
    ((∀ c ∈ o.containers, c.name = nm → c.securityContext = none) →
      ∀ d ∈ (DefaultPodSpec o n).1.containers, d.name = nm →
        ∀ sd, d.securityContext = some sd → sd.procMount = none) ∧
    ((∀ c ∈ o.initContainers, c.name = nm → c.securityContext = none) →
      ∀ d ∈ (DefaultPodSpec o n).1.initContainers, d.name = nm →
        ∀ sd, d.securityContext = some sd → sd.procMount = none) := by
  constructor
  · intro habs
    have hlook : (procMountMapOf o.containers nm).getD none = none := by
      rw [procMountMapOf_absent o.containers nm habs]
      rfl
    rw [DefaultPodSpec_containers]
    exact mem_map_DefaultContainer_procMount o.containers n.containers nm none hlook
  · intro habs
    have hlook : (procMountMapOf o.initContainers nm).getD none = none := by
      rw [procMountMapOf_absent o.initContainers nm habs]
      rfl
    rw [DefaultPodSpec_initContainers]
    exact mem_map_DefaultContainer_procMount o.initContainers n.initContainers nm none hlook

/-- Witness for C3: the unknown container `x` arrives with `Unmasked` set and
leaves normalization with the proc mount erased, in both lists. -/
theorem claimC3_witness :
    ((∀ c ∈ exPodSpecOld.containers, c.name = "x" → c.securityContext = none) ∧
      (∀ d ∈ (DefaultPodSpec exPodSpecOld exPodSpecX).1.containers, d.name = "x" →
        ∀ sd, d.securityContext = some sd → sd.procMount = none)) ∧
    ((∀ c ∈ exPodSpecOld.initContainers, c.name = "x" → c.securityContext = none) ∧
      (∀ d ∈ (DefaultPodSpec exPodSpecOld exPodSpecX).1.initContainers, d.name = "x" →
        ∀ sd, d.securityContext = some sd → sd.procMount = none)) :=
  ⟨⟨by decide, (claimC3_overwrite_to_unset exPodSpecOld exPodSpecX "x").1 (by decide)⟩,
   ⟨by decide, (claimC3_overwrite_to_unset exPodSpecOld exPodSpecX "x").2 (by decide)⟩⟩

/-- C10: Cross-list isolation of carry-forward — a main container never
inherits the isolation mode of an old INIT container of the same name (and
vice versa): when the name is, in the corresponding old list, only present
without a security context or absent, the mode is overwritten to unset even
though the OTHER old list has that name with a mode `M`. -/
theorem claimC10_cross_list_isolation (o n : PodSpec) (nm : String) (M : String) :
    ((∃ c ∈ o.initContainers, c.name = nm ∧
        ∃ sc, c.securityContext = some sc ∧ sc.procMount = some M) →
      (∀ c ∈ o.containers, c.name = nm → c.securityContext = none) →
      ∀ d ∈ (DefaultPodSpec o n).1.containers, d.name = nm →
        ∀ sd, d.securityContext = some sd → sd.procMount = none) ∧
    ((∃ c ∈ o.containers, c.name = nm ∧
        ∃ sc, c.securityContext = some sc ∧ sc.procMount = some M) →
      (∀ c ∈ o.initContainers, c.name = nm → c.securityContext = none) →
      ∀ d ∈ (DefaultPodSpec o n).1.initContainers, d.name = nm →
        ∀ sd, d.securityContext = some sd → sd.procMount = none) := by
  constructor
  · intro _ habs
    have hlook : (procMountMapOf o.containers nm).getD none = none := by
      rw [procMountMapOf_absent o.containers nm habs]
      rfl
    rw [DefaultPodSpec_containers]
    exact mem_map_DefaultContainer_procMount o.containers n.containers nm none hlook
  · intro _ habs
    have hlook : (procMountMapOf o.initContainers nm).getD none = none := by
      rw [procMountMapOf_absent o.initContainers nm habs]
      rfl
    rw [DefaultPodSpec_initContainers]
    exact mem_map_DefaultContainer_procMount o.initContainers n.initContainers nm none hlook

/-- Witness for C10: `shared` has mode `Unmasked` among old INIT containers
only, yet the new MAIN `shared` ends with the mode unset; symmetrically for
`shared2`. -/
theorem claimC10_witness :
    ((∃ c ∈ exPodSpecCrossOld.initContainers, c.name = "shared" ∧
        ∃ sc, c.securityContext = some sc ∧ sc.procMount = some "Unmasked") ∧
      (∀ d ∈ (DefaultPodSpec exPodSpecCrossOld exPodSpecCrossNew).1.containers,
        d.name = "shared" → ∀ sd, d.securityContext = some sd → sd.procMount = none)) ∧
    ((∃ c ∈ exPodSpecCrossOld.containers, c.name = "shared2" ∧
        ∃ sc, c.securityContext = some sc ∧ sc.procMount = some "Default") ∧
      (∀ d ∈ (DefaultPodSpec exPodSpecCrossOld exPodSpecCrossNew).1.initContainers,
        d.name = "shared2" → ∀ sd, d.securityContext = some sd → sd.procMount = none)) :=
  ⟨⟨by decide,
    (claimC10_cross_list_isolation exPodSpecCrossOld exPodSpecCrossNew "shared" "Unmasked").1
      (by decide) (by decide)⟩,
   ⟨by decide,
    (claimC10_cross_list_isolation exPodSpecCrossOld exPodSpecCrossNew "shared2" "Default").2
      (by decide) (by decide)⟩⟩

/-- C5: Error short-circuit — for each of the four workload wrappers, an
error of the inner reconciler is propagated verbatim with a `nil` result and
no defaulting applied (the wrapped value is returned as `Except.error e`
exactly). -/
theorem claimC5_error_short_circuit :
    (∀ (r : DeploymentReconciler) (d : Deployment) (e : String),
      r d = Except.error e → DefaultDeployment r d = Except.error e) ∧
    (∀ (r : StatefulSetReconciler) (s : StatefulSet) (e : String),
      r s = Except.error e → DefaultStatefulSet r s = Except.error e) ∧
    (∀ (r : DaemonSetReconciler) (s : DaemonSet) (e : String),
      r s = Except.error e → DefaultDaemonSet r s = Except.error e) ∧
    (∀ (r : CronJobReconciler) (c : CronJob) (e : String),
      r c = Except.error e → DefaultCronJob r c = Except.error e) := by
  refine ⟨fun r x e h => ?_, fun r x e h => ?_, fun r x e h => ?_, fun r x e h => ?_⟩ <;>
    simp [DefaultDeployment, DefaultStatefulSet, DefaultDaemonSet, DefaultCronJob, h]

/-- Witness for C5: a constantly-failing reconciler short-circuits all four
wrappers with its error. -/
theorem claimC5_witness :
    DefaultDeployment (fun _ => Except.error "boom") exDeployment = Except.error "boom" ∧
    DefaultStatefulSet (fun _ => Except.error "boom") exStatefulSet = Except.error "boom" ∧
    DefaultDaemonSet (fun _ => Except.error "boom") exDaemonSet = Except.error "boom" ∧
    DefaultCronJob (fun _ => Except.error "boom") exCronJob = Except.error "boom" :=
  ⟨claimC5_error_short_circuit.1 (fun _ => Except.error "boom") exDeployment "boom" rfl,
   claimC5_error_short_circuit.2.1 (fun _ => Except.error "boom") exStatefulSet "boom" rfl,
   claimC5_error_short_circuit.2.2.1 (fun _ => Except.error "boom") exDaemonSet "boom" rfl,
   claimC5_error_short_circuit.2.2.2 (fun _ => Except.error "boom") exCronJob "boom" rfl⟩

/-- C6: Deployment strategy defaulting — after a successful inner reconcile,
an unset strategy type becomes `RollingUpdate` (with surge 1 / unavailable 0
as absolute counts when the rolling-update descriptor was absent, and the
descriptor kept otherwise), while a set strategy type leaves the whole
strategy untouched. -/
theorem claimC6_deployment_strategy (reconciler : DeploymentReconciler) (d d' : Deployment)
    (h : reconciler d = Except.ok d') :
    ∃ res, DefaultDeployment reconciler d = Except.ok res ∧
      (d'.spec.strategy.type ≠ "" → res.spec.strategy = d'.spec.strategy) ∧
      (d'.spec.strategy.type = "" →
        res.spec.strategy.type = RollingUpdateDeploymentStrategyType ∧
        (d'.spec.strategy.rollingUpdate = none →
          ∃ ru, res.spec.strategy.rollingUpdate = some ru ∧
            ru.maxSurge = some { type := intstrInt, intVal := 1, strVal := "" } ∧
            ru.maxUnavailable = some { type := intstrInt, intVal := 0, strVal := "" }) ∧
        (∀ ru, d'.spec.strategy.rollingUpdate = some ru →
          res.spec.strategy.rollingUpdate = some ru)) := by
  by_cases ht : d'.spec.strategy.type = "" <;>
    by_cases hru : d'.spec.strategy.rollingUpdate = none <;>
      simp only [DefaultDeployment, h, ht, hru] <;> rw [DefaultPodSpec_eq] <;>
        refine ⟨_, rfl, ?_, ?_⟩ <;> simp_all [defaultRollingUpdate]

/-- Witness for C6: an unset strategy receives `RollingUpdate` with default
bounds; a `Recreate` strategy with absent bounds is untouched. -/
theorem claimC6_witness :
    (∃ res, DefaultDeployment (fun _ => Except.ok exDeployment) exDeployment = Except.ok res ∧
      res.spec.strategy.type = RollingUpdateDeploymentStrategyType ∧
      ∃ ru, res.spec.strategy.rollingUpdate = some ru ∧
        ru.maxSurge = some { type := intstrInt, intVal := 1, strVal := "" } ∧
        ru.maxUnavailable = some { type := intstrInt, intVal := 0, strVal := "" }) ∧
    (∃ res, DefaultDeployment (fun _ => Except.ok exDeploymentRecreate) exDeployment =
        Except.ok res ∧
      res.spec.strategy = exDeploymentRecreate.spec.strategy) := by
  constructor
  · obtain ⟨res, hres, hne, he⟩ := claimC6_deployment_strategy
      (fun _ => Except.ok exDeployment) exDeployment exDeployment rfl
    obtain ⟨hty, hdef, hkeep⟩ := he rfl
    exact ⟨res, hres, hty, hdef rfl⟩
  · obtain ⟨res, hres, hne, he⟩ := claimC6_deployment_strategy
      (fun _ => Except.ok exDeploymentRecreate) exDeployment exDeploymentRecreate rfl
    exact ⟨res, hres, hne (by decide)⟩

end Reconciling
